import Mathlib

/-!
# Shallow embedding of the `gen` CTE / window-function SQL composer

This file embeds the SQL-fragment composer of the repository (Go package
`gen` plus its `field` sub-package) and settles the frozen claims about it.

Sources embedded:
* `src/unnamed/part_002` (Go file, package `gen`): `WindowSpec`, `FrameSpec`,
  `FrameBound`, `buildWindowExpression`, `buildFrameClause`,
  `windowViewDO.Select`.
* `src/unnamed/part_001` (Go file, package `field`): `WindowFunction`
  (a `funcName` string together with a `clause.Expr{SQL: funcName, Vars: args}`
  raw expression) and its constructors (`RowNumberFunc`, `WindowSum`, ...).
* `src/with.go` (package `gen`): `WithQuery.Select` (the CTE compiler) and the
  string-based `WindowFunction` / `OverClause` / `FrameClause` with
  `WindowFunction.buildSQL`.

Modelling conventions:
* Go `interface{}` parameter values (the elements of `Vars`) are modelled by
  the inductive `GoValue` (ints, strings, `clause.Column`s, and nested
  `clause.Expr{SQL, Vars}` values).
* A `field.Expr` is observed by this code only through `RawExpr()` (part_002)
  and `ColumnName()` (with.go); `FieldExpr` records exactly those two
  observations.
* Go's `strings.Join` is modelled by `stringsJoin`; the `for i, x := range`
  loops that insert a separator when `i > 0` are modelled by structurally
  recursive functions that treat the head (index 0) specially.
* The compilers are total Go functions returning strings / slices; the
  embedding makes them total Lean functions.  No function in these sources
  returns an `error`.
-/

/-- Model of a Go `interface{}` value as it occurs in parameter (`Vars`)
lists: integers, strings, `clause.Column` references, and nested
`clause.Expr{SQL, Vars}` expression values. -/
inductive GoValue where
  | vint (n : Int)
  | vstr (s : String)
  | column (table name : String)
  | expr (sql : String) (vars : List GoValue)

/-- The observations this code makes of a `field.Expr`:
`RawExpr()` (used by `buildWindowExpression`, part_002 lines 545/560) and
`ColumnName()` (used by `WindowFunction.buildSQL`, with.go lines 264/276;
every `field` expression implements `IColumnName`, so that type assertion
always succeeds and `ColumnName()` returns the underlying `col.Name`). -/
structure FieldExpr where
  columnName : String
  raw : GoValue

/-- `field.WindowFunction` (src/unnamed/part_001): a `funcName` string plus
the expression `clause.Expr{SQL: funcName, Vars: argVars}` installed by
`setE` — in every constructor of part_001 the stored SQL equals `funcName`
and `argVars` are the function's own argument parameters. -/
structure WindowFunction where
  funcName : String
  argVars : List GoValue

/-- `WindowFunction.RawExpr()`: returns the stored `clause.Expr`. -/
def WindowFunction.rawExpr (w : WindowFunction) : GoValue :=
  .expr w.funcName w.argVars

/-- `field.RowNumberFunc()` (part_001 lines 211-216). -/
def rowNumberFunc : WindowFunction :=
  { funcName := "ROW_NUMBER()", argVars := [] }

/-- `field.RankFunc()` (part_001 lines 219-224). -/
def rankFunc : WindowFunction :=
  { funcName := "RANK()", argVars := [] }

/-- `(e expr) WindowSum()` (part_001 lines 141-149): SQL `"SUM(?)"` with the
receiver's `RawExpr()` as the single argument parameter. -/
def windowSum (receiver : FieldExpr) : WindowFunction :=
  { funcName := "SUM(?)", argVars := [receiver.raw] }

/-- `FrameBoundType` (src/unnamed/part_002 lines 441-449). -/
inductive FrameBoundType where
  | unboundedPreceding
  | precedingB
  | currentRow
  | followingB
  | unboundedFollowing

/-- The string value of each `FrameBoundType` constant (part_002 lines
443-448). -/
def FrameBoundType.str : FrameBoundType → String
  | .unboundedPreceding => "UNBOUNDED PRECEDING"
  | .precedingB => "PRECEDING"
  | .currentRow => "CURRENT ROW"
  | .followingB => "FOLLOWING"
  | .unboundedFollowing => "UNBOUNDED FOLLOWING"

/-- `FrameType` (part_002 lines 426-432): `ROWS` or `RANGE`. -/
inductive FrameType where
  | rows
  | range

/-- The string value of each `FrameType` constant. -/
def FrameType.str : FrameType → String
  | .rows => "ROWS"
  | .range => "RANGE"

/-- `FrameBound` (part_002 lines 434-438): a bound type plus an optional
offset (`Offset interface{}`, `nil` when absent). -/
structure FrameBound where
  btype : FrameBoundType
  offset : Option GoValue

/-- `FrameSpec` (part_002 lines 419-424): frame type, start bound, and an
optional end bound (`End *FrameBound`). -/
structure FrameSpec where
  ftype : FrameType
  start : FrameBound
  endBound : Option FrameBound

/-- `buildFrameClause` (src/unnamed/part_002 lines 583-597), translated
statement by statement.  Go's byte slice `result[:len(result)-len(endType)]`
is `String.take` of the character count, which agrees because every string
involved is ASCII. -/
def buildFrameClause (frame : FrameSpec) : String :=
  let result := frame.start.btype.str
  let result := if frame.start.offset.isSome then "? " ++ result else result
  match frame.endBound with
  | none => result
  | some e =>
      let result := result ++ " AND " ++ e.btype.str
      if e.offset.isSome then
        (result.take (result.length - e.btype.str.length)) ++ "? " ++ e.btype.str
      else
        result

/-- `WindowSpec` (part_002 lines 412-417). -/
structure WindowSpec where
  partitionBy : List FieldExpr
  orderBy : List FieldExpr
  frame : Option FrameSpec

/-- The Go zero value of `WindowSpec` (`var spec WindowSpec`): nil slices and
nil frame pointer. -/
def zeroWindowSpec : WindowSpec :=
  { partitionBy := [], orderBy := [], frame := none }

/-- Model of `clause.Expr{SQL, Vars}`, the result record of
`buildWindowExpression` (wrapped there in `field.NewExpr`). -/
structure ClauseExpr where
  sql : String
  vars : List GoValue

/-- Tail of the `for i, col := range cols` loops of `buildWindowExpression`
(part_002 lines 540-547 and 555-561) for indices `i > 0`: each element
contributes `", "` then `"?"` to the clause and its `RawExpr()` to `vars`. -/
def emitColumnsTail : List FieldExpr → String × List GoValue
  | [] => ("", [])
  | c :: rest =>
      let tail := emitColumnsTail rest
      (", " ++ "?" ++ tail.1, c.raw :: tail.2)

/-- The full `for i, col := range cols` loop of `buildWindowExpression`:
index 0 contributes `"?"` with no separator, every later index contributes
`", ?"`; the `RawExpr()` values are collected in list order. -/
def emitColumns : List FieldExpr → String × List GoValue
  | [] => ("", [])
  | c :: rest =>
      let tail := emitColumnsTail rest
      ("?" ++ tail.1, c.raw :: tail.2)

/-- `buildWindowExpression` (src/unnamed/part_002 lines 530-580): builds the
`OVER` clause (PARTITION BY, then ORDER BY, then frame), appends `")"`,
prefixes `windowFunc.WindowFuncName()`, and prepends
`windowFunc.RawExpr()` to the collected `vars`. -/
def buildWindowExpression (windowFunc : WindowFunction) (spec : WindowSpec) :
    ClauseExpr :=
  let overClause := " OVER ("
  let acc :=
    if spec.partitionBy.length > 0 then
      let p := emitColumns spec.partitionBy
      (overClause ++ "PARTITION BY " ++ p.1, p.2)
    else
      (overClause, ([] : List GoValue))
  let acc :=
    if spec.orderBy.length > 0 then
      let withSep := if spec.partitionBy.length > 0 then acc.1 ++ " " else acc.1
      let o := emitColumns spec.orderBy
      (withSep ++ "ORDER BY " ++ o.1, acc.2 ++ o.2)
    else
      acc
  let acc :=
    match spec.frame with
    | some fr => (acc.1 ++ " " ++ fr.ftype.str ++ " " ++ buildFrameClause fr, acc.2)
    | none => acc
  { sql := windowFunc.funcName ++ (acc.1 ++ ")"),
    vars := windowFunc.rawExpr :: acc.2 }

/-- An element of the column list assembled by `windowViewDO.Select`
(part_002 lines 510-527): either one of the explicitly selected columns or a
compiled window expression appended by the loop. -/
inductive SelectColumn where
  | plain (c : FieldExpr)
  | windowExpr (e : ClauseExpr)

/-- The `for i, windowFunc := range w.windowFuncs` loop of
`windowViewDO.Select` (part_002 lines 516-524), started at index `i`:
takes `specs[i]` when `i < len(specs)` and the zero `WindowSpec` otherwise
(`var spec WindowSpec`), and appends the built window expression. -/
def windowColumnsLoop (specs : List WindowSpec) : Nat → List WindowFunction → List SelectColumn
  | _, [] => []
  | i, wf :: rest =>
      SelectColumn.windowExpr (buildWindowExpression wf (specs.getD i zeroWindowSpec)) ::
        windowColumnsLoop specs (i + 1) rest

/-- `windowViewDO.Select` (part_002 lines 510-527): the explicitly selected
columns followed by the compiled window expressions in declaration order. -/
def windowViewSelect (columns : List SelectColumn) (windowFuncs : List WindowFunction)
    (windowSpecs : List WindowSpec) : List SelectColumn :=
  columns ++ windowColumnsLoop windowSpecs 0 windowFuncs

/-- The observation `WithQuery.Select` makes of a compiled sub-query
(with.go lines 52-56): `stmt.SQL.String()` and `stmt.Vars`. -/
structure SubQueryStmt where
  sql : String
  vars : List GoValue

/-- `WithClause` (with.go lines 14-17): a CTE name and its sub-query. -/
structure WithClause where
  name : String
  query : SubQueryStmt

/-- Go's `strings.Join(parts, sep)`. -/
def stringsJoin (sep : String) : List String → String
  | [] => ""
  | [s] => s
  | s :: rest => s ++ sep ++ stringsJoin sep rest

/-- The `for _, withClause := range w.withClauses` loop of
`WithQuery.Select` (with.go lines 45-59): collects
`"<name> AS (<sql>)"` parts and appends each sub-query's `stmt.Vars` to
`allArgs`, in declaration order. -/
def withSelectLoop (withClauses : List WithClause) : List String × List GoValue :=
  withClauses.foldl
    (fun acc wc =>
      (acc.1 ++ [wc.name ++ " AS (" ++ wc.query.sql ++ ")"], acc.2 ++ wc.query.vars))
    ([], [])

/-- `WithQuery.Select` (with.go lines 40-78), branch `len(columns) > 0`:
`withSQL := "WITH " + strings.Join(withParts, ", ")`, then
`finalSQL := withSQL + " SELECT " + selectSQL` with
`allArgs = append(allArgs, selectArgs...)`.  `selectSQL`/`selectArgs` are
the output of the external `buildExpr4Select` on the selected columns. -/
def withQuerySelect (withClauses : List WithClause) (selectSQL : String)
    (selectArgs : List GoValue) : String × List GoValue :=
  let acc := withSelectLoop withClauses
  let withSQL := "WITH " ++ stringsJoin ", " acc.1
  (withSQL ++ " SELECT " ++ selectSQL, acc.2 ++ selectArgs)

/-- `FrameClause` of with.go (lines 140-144): frame type and bounds already
rendered as strings (`""` meaning "no end bound"). -/
structure WGFrameClause where
  ftype : String
  start : String
  endB : String

/-- `OverClause` of with.go (lines 133-137). -/
structure WGOverClause where
  partitionBy : List FieldExpr
  orderBy : List FieldExpr
  frame : Option WGFrameClause

/-- `WindowFunction` of with.go (lines 127-130): a raw function string plus
an optional `OverClause` (nil until `Over()` is called). -/
structure WGWindowFunction where
  function : String
  overClause : Option WGOverClause

/-- `WindowFunction.buildSQL` (with.go lines 255-300): pure string building;
partition/order columns are rendered through `ColumnName()` (the
`field.IColumnName` assertion always succeeds), the frame renders
`Type BETWEEN Start AND End` when `End != ""` and `Type Start` otherwise,
and the parts are joined with single spaces. -/
def WGWindowFunction.buildSQL (w : WGWindowFunction) : String :=
  let sql := w.function ++ " OVER ("
  let sql :=
    match w.overClause with
    | none => sql
    | some oc =>
        let parts : List String := []
        let parts :=
          if oc.partitionBy.length > 0 then
            parts ++ ["PARTITION BY " ++ stringsJoin ", " (oc.partitionBy.map (·.columnName))]
          else parts
        let parts :=
          if oc.orderBy.length > 0 then
            parts ++ ["ORDER BY " ++ stringsJoin ", " (oc.orderBy.map (·.columnName))]
          else parts
        let parts :=
          match oc.frame with
          | some f =>
              let frameSQL := f.ftype
              let frameSQL :=
                if f.endB ≠ "" then frameSQL ++ " BETWEEN " ++ f.start ++ " AND " ++ f.endB
                else frameSQL ++ " " ++ f.start
              parts ++ [frameSQL]
          | none => parts
        sql ++ stringsJoin " " parts
  sql ++ ")"

/-- `(o *OverClause) Rows(start, end)` (with.go lines 237-240). -/
def wgRows (start endB : String) : WGFrameClause :=
  { ftype := "ROWS", start := start, endB := endB }

/-! ## Helper functions for stating properties of the emitted SQL -/

/-- Number of occurrences of the character `c` in the string `s`. -/
def countChar (c : Char) (s : String) : Nat :=
  (s.data.filter (fun x => x = c)).length

/-- Number of `?` characters — positional placeholders — in an SQL string
(none of the SQL keywords or names emitted by this code contain `?`). -/
def countPlaceholders (s : String) : Nat :=
  countChar '?' s

/-- `leadsWith pat l` : `pat` is an initial segment of `l`. -/
def leadsWith : List Char → List Char → Bool
  | [], _ => true
  | _ :: _, [] => false
  | a :: as, b :: bs => a == b && leadsWith as bs

/-- Number of (possibly overlapping) occurrences of the non-empty pattern
`pat` in `l`. -/
def countOcc (pat : List Char) : List Char → Nat
  | [] => 0
  | c :: rest => (if leadsWith pat (c :: rest) then 1 else 0) + countOcc pat rest

/-- The string emitted for `n` columns by the placeholder loops after the
first element: `", ?"` repeated `n` times. -/
def placeholdersTail : Nat → String
  | 0 => ""
  | n + 1 => ", " ++ "?" ++ placeholdersTail n

/-- The string emitted for `n` columns by the placeholder loops:
`"?"` followed by `n - 1` copies of `", ?"` (empty for `n = 0`). -/
def placeholders : Nat → String
  | 0 => ""
  | n + 1 => "?" ++ placeholdersTail n

/-! ## Characterization lemmas -/

theorem emitColumnsTail_eq (cols : List FieldExpr) :
    emitColumnsTail cols = (placeholdersTail cols.length, cols.map (·.raw)) := by
  induction cols with
  | nil => rfl
  | cons c rest ih => simp [emitColumnsTail, ih, placeholdersTail]

theorem emitColumns_eq (cols : List FieldExpr) :
    emitColumns cols = (placeholders cols.length, cols.map (·.raw)) := by
  cases cols with
  | nil => rfl
  | cons c rest => simp [emitColumns, emitColumnsTail_eq, placeholders]

/-- Closed form of the `OVER (...)` body built by `buildWindowExpression`:
partition segment, then order segment (with a separating space only when a
partition segment was emitted), then frame segment. -/
def overBody (spec : WindowSpec) : String :=
  (if spec.partitionBy.length > 0 then
    "PARTITION BY " ++ placeholders spec.partitionBy.length
   else "") ++
  (if spec.orderBy.length > 0 then
    (if spec.partitionBy.length > 0 then " " else "") ++
      "ORDER BY " ++ placeholders spec.orderBy.length
   else "") ++
  (match spec.frame with
   | some fr => " " ++ fr.ftype.str ++ " " ++ buildFrameClause fr
   | none => "")

/-- Literal-merge helpers: re-associate one step so adjacent string
literals combine. -/
theorem mergeOverParen (s : String) : (s ++ " OVER (") ++ ")" = s ++ " OVER ()" := by
  rw [String.append_assoc]; simp

theorem mergeOverSpace (s : String) : (s ++ " OVER (") ++ " " = s ++ " OVER ( " := by
  rw [String.append_assoc]; simp

theorem mergeOverOrder (s : String) :
    (s ++ " OVER (") ++ "ORDER BY " = s ++ " OVER (ORDER BY " := by
  rw [String.append_assoc]; simp

theorem mergeOverPartition (s : String) :
    (s ++ " OVER (") ++ "PARTITION BY " = s ++ " OVER (PARTITION BY " := by
  rw [String.append_assoc]; simp

theorem mergeSpaceOrder (s : String) :
    (s ++ " ") ++ "ORDER BY " = s ++ " ORDER BY " := by
  rw [String.append_assoc]; simp

theorem buildWindowExpression_eq (w : WindowFunction) (spec : WindowSpec) :
    buildWindowExpression w spec =
      { sql := w.funcName ++ " OVER (" ++ overBody spec ++ ")",
        vars := w.rawExpr ::
          (spec.partitionBy.map (·.raw) ++ spec.orderBy.map (·.raw)) } := by
  rcases spec with ⟨p, o, fr⟩
  unfold buildWindowExpression overBody
  rcases p with _ | ⟨pc, pr⟩ <;> rcases o with _ | ⟨oc, orest⟩ <;> rcases fr with _ | fr <;>
    simp [emitColumns_eq, ← String.append_assoc, String.append_empty, String.empty_append,
      mergeOverParen, mergeOverSpace, mergeOverOrder, mergeOverPartition, mergeSpaceOrder]

theorem buildWindowExpression_zero (w : WindowFunction) :
    buildWindowExpression w zeroWindowSpec =
      { sql := w.funcName ++ " OVER ()", vars := [w.rawExpr] } := by
  simp [buildWindowExpression_eq, zeroWindowSpec, overBody, ← String.append_assoc, mergeOverParen]

theorem withSelectLoop_eq (withClauses : List WithClause) :
    withSelectLoop withClauses =
      (withClauses.map fun wc => wc.name ++ " AS (" ++ wc.query.sql ++ ")",
       (withClauses.map fun wc => wc.query.vars).flatten) := by
  suffices h : ∀ (a : List String) (b : List GoValue),
      withClauses.foldl
        (fun acc wc =>
          (acc.1 ++ [wc.name ++ " AS (" ++ wc.query.sql ++ ")"], acc.2 ++ wc.query.vars))
        (a, b) =
      (a ++ withClauses.map fun wc => wc.name ++ " AS (" ++ wc.query.sql ++ ")",
       b ++ (withClauses.map fun wc => wc.query.vars).flatten) by
    simpa [withSelectLoop] using h [] []
  induction withClauses with
  | nil => simp
  | cons wc rest ih => intro a b; simp [ih, List.append_assoc]

/-- Number of (possibly overlapping) occurrences of the non-empty pattern
`pat` in the string `s`, at character level. -/
def countSub (pat s : String) : Nat :=
  countOcc pat.data s.data

theorem countChar_append (c : Char) (a b : String) :
    countChar c (a ++ b) = countChar c a + countChar c b := by
  simp [countChar, String.data_append]

theorem countPlaceholders_append (a b : String) :
    countPlaceholders (a ++ b) = countPlaceholders a + countPlaceholders b :=
  countChar_append '?' a b

theorem countPlaceholders_placeholdersTail (n : Nat) :
    countPlaceholders (placeholdersTail n) = n := by
  induction n with
  | zero => rfl
  | succ n ih =>
      show countPlaceholders (", " ++ ("?" ++ placeholdersTail n)) = n + 1
      rw [countPlaceholders_append, countPlaceholders_append, ih]
      have h1 : countPlaceholders ", " = 0 := rfl
      have h2 : countPlaceholders "?" = 1 := rfl
      rw [h1, h2]; omega

theorem countPlaceholders_placeholders (n : Nat) :
    countPlaceholders (placeholders n) = n := by
  cases n with
  | zero => rfl
  | succ n =>
      show countPlaceholders ("?" ++ placeholdersTail n) = n + 1
      rw [countPlaceholders_append, countPlaceholders_placeholdersTail]
      have h2 : countPlaceholders "?" = 1 := rfl
      rw [h2]
      omega

theorem countPlaceholders_overBody_noframe (p o : List FieldExpr) :
    countPlaceholders (overBody ⟨p, o, none⟩) = p.length + o.length := by
  have hpart : countPlaceholders "PARTITION BY " = 0 := rfl
  have hord : countPlaceholders "ORDER BY " = 0 := rfl
  have hsp : countPlaceholders " " = 0 := rfl
  have hemp : countPlaceholders "" = 0 := rfl
  have hsord : countPlaceholders " ORDER BY " = 0 := rfl
  rcases p with _ | ⟨pc, pr⟩ <;> rcases o with _ | ⟨oc, orest⟩ <;>
    simp [overBody, countPlaceholders_append, countPlaceholders_placeholders,
      hpart, hord, hsp, hemp, hsord]

theorem windowColumnsLoop_enum (specs : List WindowSpec) (funcs : List WindowFunction) :
    ∀ i, windowColumnsLoop specs i funcs =
      (funcs.enumFrom i).map fun q =>
        SelectColumn.windowExpr (buildWindowExpression q.2 (specs.getD q.1 zeroWindowSpec)) := by
  induction funcs with
  | nil => intro i; rfl
  | cons wf rest ih => intro i; simp [windowColumnsLoop, List.enumFrom, ih]

theorem windowColumnsLoop_take (specs : List WindowSpec) (funcs : List WindowFunction) :
    ∀ i, windowColumnsLoop (specs.take (i + funcs.length)) i funcs =
      windowColumnsLoop specs i funcs := by
  induction funcs with
  | nil => intro i; rfl
  | cons wf rest ih =>
      intro i
      simp only [windowColumnsLoop, List.length_cons]
      have h1 : (specs.take (i + (rest.length + 1))).getD i zeroWindowSpec =
          specs.getD i zeroWindowSpec := by
        rw [List.getD_eq_getElem?_getD, List.getD_eq_getElem?_getD, List.getElem?_take,
          if_pos (by omega)]
      have h2 : i + (rest.length + 1) = (i + 1) + rest.length := by omega
      rw [h1, h2, ih]

theorem mergeParenComma (s : String) : (s ++ ")") ++ ", " = s ++ "), " := by
  rw [String.append_assoc]; simp

theorem mergeParenSelect (s : String) :
    (s ++ ")") ++ " SELECT " = s ++ ") SELECT " := by
  rw [String.append_assoc]; simp

/-! ## Claim theorems -/

/-- C1: for every non-empty ordered list of CTEs (written structurally as
`wc :: wcs`) and every base query, `WithQuery.Select` emits
`WITH <n1> AS (<sql1>), <n2> AS (<sql2>), ... SELECT <base>` with the CTEs
in declaration order, and the returned parameter sequence is the
concatenation of each CTE's parameters in declaration order followed by the
base query's parameters. -/
theorem c1_cte_compiler_emits_with_clauses (wc : WithClause) (wcs : List WithClause)
    (selectSQL : String) (selectArgs : List GoValue) :
    withQuerySelect (wc :: wcs) selectSQL selectArgs =
      ("WITH " ++
         stringsJoin ", " ((wc :: wcs).map fun c => c.name ++ " AS (" ++ c.query.sql ++ ")") ++
         " SELECT " ++ selectSQL,
       ((wc :: wcs).map fun c => c.query.vars).flatten ++ selectArgs) := by
  simp [withQuerySelect, withSelectLoop_eq, ← String.append_assoc]

/-- C2: evaluation of `buildWindowExpression` at the failing inputs.  With
the zero `WindowSpec`, the SQL `ROW_NUMBER() OVER ()` has `0` placeholders
but `1` collected parameter (the function's whole `RawExpr()` is always
prepended); with a `ROWS 2 PRECEDING / 2 FOLLOWING` frame the SQL contains
`2` frame placeholders while still only `1` parameter is collected (frame
offsets are never added to `vars`).  This refutes the claimed
placeholder/parameter alignment on the code as written. -/
theorem c2_placeholder_parameter_mismatch :
    (buildWindowExpression rowNumberFunc zeroWindowSpec).sql = "ROW_NUMBER() OVER ()" ∧
    countPlaceholders (buildWindowExpression rowNumberFunc zeroWindowSpec).sql = 0 ∧
    (buildWindowExpression rowNumberFunc zeroWindowSpec).vars.length = 1 ∧
    countPlaceholders (buildWindowExpression rowNumberFunc
      ⟨[], [], some ⟨.rows, ⟨.precedingB, some (.vint 2)⟩,
        some ⟨.followingB, some (.vint 2)⟩⟩⟩).sql = 2 ∧
    (buildWindowExpression rowNumberFunc
      ⟨[], [], some ⟨.rows, ⟨.precedingB, some (.vint 2)⟩,
        some ⟨.followingB, some (.vint 2)⟩⟩⟩).vars.length = 1 :=
  ⟨rfl, rfl, rfl, rfl, rfl⟩

/-- C3: evaluation at the failing input.  `buildFrameClause` renders the
two-bound `ROWS` frame with start `2 PRECEDING` and end `2 FOLLOWING` as
`? PRECEDING AND ? FOLLOWING` — no `BETWEEN` keyword and the offsets as
placeholders — so the whole window SQL contains no occurrence of `BETWEEN`;
the string-based path (`WindowFunction.buildSQL` of with.go) does emit
`ROWS BETWEEN 2 PRECEDING AND 2 FOLLOWING`, which is what the claim (and the
repository's own README) expects of the structured path as well. -/
theorem c3_frame_between_divergence :
    buildFrameClause ⟨.rows, ⟨.precedingB, some (.vint 2)⟩,
        some ⟨.followingB, some (.vint 2)⟩⟩ = "? PRECEDING AND ? FOLLOWING" ∧
    (buildWindowExpression rowNumberFunc
        ⟨[], [], some ⟨.rows, ⟨.precedingB, some (.vint 2)⟩,
          some ⟨.followingB, some (.vint 2)⟩⟩⟩).sql =
      "ROW_NUMBER() OVER ( ROWS ? PRECEDING AND ? FOLLOWING)" ∧
    countSub "BETWEEN" (buildWindowExpression rowNumberFunc
        ⟨[], [], some ⟨.rows, ⟨.precedingB, some (.vint 2)⟩,
          some ⟨.followingB, some (.vint 2)⟩⟩⟩).sql = 0 ∧
    WGWindowFunction.buildSQL
        ⟨"SUM(amount)", some ⟨[], [], some (wgRows "2 PRECEDING" "2 FOLLOWING")⟩⟩ =
      "SUM(amount) OVER (ROWS BETWEEN 2 PRECEDING AND 2 FOLLOWING)" :=
  ⟨rfl, rfl, rfl, rfl⟩

/-- C4 counterexample: with the zero `WindowSpec`, `buildWindowExpression`
does yield exactly `ROW_NUMBER() OVER ()`, but it collects one parameter
(the function's whole raw expression) even though `ROW_NUMBER()` has no
argument parameters — refuting "zero parameters beyond the function's own
argument parameters". -/
theorem c4_zero_spec_counterexample :
    (buildWindowExpression rowNumberFunc zeroWindowSpec).sql = "ROW_NUMBER() OVER ()" ∧
    rowNumberFunc.argVars = [] ∧
    (buildWindowExpression rowNumberFunc zeroWindowSpec).vars = [.expr "ROW_NUMBER()" []] ∧
    (buildWindowExpression rowNumberFunc zeroWindowSpec).vars ≠ rowNumberFunc.argVars := by
  refine ⟨rfl, rfl, rfl, ?_⟩
  intro h
  exact List.cons_ne_nil _ _ h

/-- C4 amended: for every window function, compiling with the zero
`WindowSpec` succeeds and yields exactly `<FUNC> OVER ()`, and the collected
parameter list is the single-element list holding the function's whole raw
expression (no spec-derived parameters are added). -/
theorem c4_zero_spec_amended (w : WindowFunction) :
    buildWindowExpression w zeroWindowSpec =
      { sql := w.funcName ++ " OVER ()", vars := [w.rawExpr] } :=
  buildWindowExpression_zero w

/-- C5 counterexample: compiling a CTE list with two entries of the same
name `x` does not fail — the compiler is total and emits both duplicates in
declaration order. -/
theorem c5_duplicate_cte_counterexample :
    withQuerySelect [⟨"x", ⟨"SELECT 1", []⟩⟩, ⟨"x", ⟨"SELECT 2", []⟩⟩] "*" [] =
      ("WITH x AS (SELECT 1), x AS (SELECT 2) SELECT *", []) :=
  rfl

/-- C5 amended: duplicate CTE names are not detected; for every pair of
sub-queries registered under the same name, `WithQuery.Select` emits both
entries in declaration order and concatenates both parameter lists, with no
error of any kind (the code has no error channel and no `ConfigurationError`
type). -/
theorem c5_duplicate_cte_amended (n : String) (q1 q2 : SubQueryStmt)
    (selectSQL : String) (selectArgs : List GoValue) :
    withQuerySelect [⟨n, q1⟩, ⟨n, q2⟩] selectSQL selectArgs =
      ("WITH " ++ n ++ " AS (" ++ q1.sql ++ "), " ++ n ++ " AS (" ++ q2.sql ++
         ") SELECT " ++ selectSQL,
       q1.vars ++ q2.vars ++ selectArgs) := by
  simp [withQuerySelect, withSelectLoop, stringsJoin, ← String.append_assoc,
    mergeParenComma, mergeParenSelect, List.append_assoc]

/-- C6 counterexample: for an ORDER BY column wrapped with a `DESC`
direction (a `field` expression whose raw expression is
`? DESC` applied to the column), `buildWindowExpression` emits only the
placeholder `?` in the SQL — the text `DESC` appears nowhere in the emitted
SQL, and the whole direction-carrying column expression is collected as a
parameter — refuting "ASC/DESC is a literal suffix and not a parameter". -/
theorem c6_emission_order_counterexample :
    (buildWindowExpression rowNumberFunc
        ⟨[], [⟨"salary", .expr "? DESC" [.column "users" "salary"]⟩], none⟩).sql =
      "ROW_NUMBER() OVER (ORDER BY ?)" ∧
    countSub "DESC" (buildWindowExpression rowNumberFunc
        ⟨[], [⟨"salary", .expr "? DESC" [.column "users" "salary"]⟩], none⟩).sql = 0 ∧
    (buildWindowExpression rowNumberFunc
        ⟨[], [⟨"salary", .expr "? DESC" [.column "users" "salary"]⟩], none⟩).vars =
      [.expr "ROW_NUMBER()" [], .expr "? DESC" [.column "users" "salary"]] :=
  ⟨rfl, rfl, rfl⟩

/-- C6 amended: `buildWindowExpression` emits its parts in the fixed order
function text, `" OVER ("`, then (if `partitionBy` is non-empty)
`PARTITION BY` with comma-joined `?` placeholders, then (if `orderBy` is
non-empty) a separating space when partitioning was emitted followed by
`ORDER BY` with comma-joined `?` placeholders, then (if a frame is present)
a separating space, the frame unit and the frame clause, then `")"`; each
partition/order column contributes one placeholder and one collected
parameter (its raw expression, which carries any ASC/DESC direction), in
supplied order. -/
theorem c6_emission_order_amended (w : WindowFunction) (spec : WindowSpec) :
    buildWindowExpression w spec =
      { sql := w.funcName ++ " OVER (" ++ overBody spec ++ ")",
        vars := w.rawExpr ::
          (spec.partitionBy.map (fun c => c.raw) ++ spec.orderBy.map (fun c => c.raw)) } :=
  buildWindowExpression_eq w spec

/-- C7 counterexample: a `PRECEDING` bound with a missing offset and a
`CURRENT ROW` bound with an offset present both render successfully
(`buildFrameClause` is a total string function with no error channel),
producing `PRECEDING` and `? CURRENT ROW` respectively — refuting "rendering
the frame fails with a ConfigurationError". -/
theorem c7_frame_validation_counterexample :
    buildFrameClause ⟨.rows, ⟨.precedingB, none⟩, none⟩ = "PRECEDING" ∧
    buildFrameClause ⟨.rows, ⟨.currentRow, some (.vint 5)⟩, none⟩ = "? CURRENT ROW" :=
  ⟨rfl, rfl⟩

set_option maxRecDepth 4096 in
/-- C7 amended: `buildFrameClause` performs no validation: every start-only
frame renders as the bound's keyword, prefixed by `"? "` exactly when an
offset is present (whether or not the bound kind allows one), and a
two-bound frame with forbidden offsets also renders (e.g.
`UNBOUNDED PRECEDING` with offset `1` and `CURRENT ROW` with offset `2`
render as `? UNBOUNDED PRECEDING AND ? CURRENT ROW`); no error is ever
reported. -/
theorem c7_frame_validation_amended (t : FrameType) (b : FrameBound) :
    buildFrameClause ⟨t, b, none⟩ =
      (if b.offset.isSome then "? " else "") ++ b.btype.str ∧
    buildFrameClause ⟨.rows, ⟨.unboundedPreceding, some (.vint 1)⟩,
        some ⟨.currentRow, some (.vint 2)⟩⟩ =
      "? UNBOUNDED PRECEDING AND ? CURRENT ROW" := by
  constructor
  · rcases b with ⟨bt, o⟩
    rcases o with _ | v <;> simp [buildFrameClause]
  · rfl

/-- C8: for every window function and window spec, the collected parameter
list is the function's raw expression followed by the raw expressions of
the partition columns and then the order columns, in exactly the order they
were supplied, with no reordering and no deduplication (`List.map` preserves
order and multiplicity); moreover each column contributes exactly one `?`
placeholder to the emitted OVER clause, so the positional correspondence is
in supplied order. -/
theorem c8_column_order_preserved (w : WindowFunction) (p o : List FieldExpr)
    (fr : Option FrameSpec) :
    (buildWindowExpression w ⟨p, o, fr⟩).vars =
      w.rawExpr :: ((p ++ o).map fun c => c.raw) ∧
    countPlaceholders (buildWindowExpression w ⟨p, o, none⟩).sql =
      countPlaceholders w.funcName + (p.length + o.length) := by
  constructor
  · simp [buildWindowExpression_eq]
  · have h1 : countPlaceholders " OVER (" = 0 := rfl
    have h2 : countPlaceholders ")" = 0 := rfl
    simp only [buildWindowExpression_eq, countPlaceholders_append, h1, h2,
      countPlaceholders_overBody_noframe]
    omega

/-- C9: the compilers are deterministic, pure functions of their immutable
inputs: compiling equal specifications (CTE lists plus base query, or a
window function plus window spec) yields byte-identical SQL strings and
identical parameter sequences. -/
theorem c9_compilation_deterministic
    (wcs wcs' : List WithClause) (sel sel' : String) (args args' : List GoValue)
    (w w' : WindowFunction) (spec spec' : WindowSpec)
    (hc : wcs = wcs') (hs : sel = sel') (ha : args = args')
    (hw : w = w') (hp : spec = spec') :
    withQuerySelect wcs sel args = withQuerySelect wcs' sel' args' ∧
    buildWindowExpression w spec = buildWindowExpression w' spec' := by
  subst hc hs ha hw hp
  exact ⟨rfl, rfl⟩

/-- C9 witness: the determinism theorem applied at a concrete input. -/
theorem c9_compilation_deterministic_witness :
    withQuerySelect [⟨"x", ⟨"SELECT 1", []⟩⟩] "*" [] =
      withQuerySelect [⟨"x", ⟨"SELECT 1", []⟩⟩] "*" [] ∧
    buildWindowExpression rowNumberFunc zeroWindowSpec =
      buildWindowExpression rowNumberFunc zeroWindowSpec :=
  c9_compilation_deterministic
    [⟨"x", ⟨"SELECT 1", []⟩⟩] [⟨"x", ⟨"SELECT 1", []⟩⟩] "*" "*" [] []
    rowNumberFunc rowNumberFunc zeroWindowSpec zeroWindowSpec
    rfl rfl rfl rfl rfl

/-- C10: `windowViewDO.Select` appends, after the explicitly selected
columns and in declaration order, one compiled window expression per window
function, pairing the i-th function with the i-th spec when `i <
specs.length` and with the zero spec otherwise (`List.getD i
zeroWindowSpec`); window specs beyond the number of functions are silently
ignored (compiling against `specs.take funcs.length` gives the same
result); and a function compiled with the zero spec yields
`<FUNC> OVER ()`. -/
theorem c10_window_select_pairing (columns : List SelectColumn)
    (funcs : List WindowFunction) (specs : List WindowSpec) :
    windowViewSelect columns funcs specs =
      columns ++ funcs.enum.map (fun q =>
        SelectColumn.windowExpr (buildWindowExpression q.2 (specs.getD q.1 zeroWindowSpec))) ∧
    windowViewSelect columns funcs (specs.take funcs.length) =
      windowViewSelect columns funcs specs ∧
    ∀ wf, buildWindowExpression wf zeroWindowSpec =
      { sql := wf.funcName ++ " OVER ()", vars := [wf.rawExpr] } := by
  refine ⟨?_, ?_, fun wf => buildWindowExpression_zero wf⟩
  · show columns ++ windowColumnsLoop specs 0 funcs = _
    rw [windowColumnsLoop_enum specs funcs 0]
    rfl
  · show columns ++ windowColumnsLoop (specs.take funcs.length) 0 funcs =
        columns ++ windowColumnsLoop specs 0 funcs
    have h := windowColumnsLoop_take specs funcs 0
    rw [Nat.zero_add] at h
    rw [h]
